import Mathlib

/-!
Verification of the tML-EC-QR repository's respiratory-pattern scripts.

This file gives a shallow embedding in Lean 4 of the pure logic of the
python scripts:

* `python/create_sample_model.py` — the rule-based labeling of synthetic
  training samples (threshold voting);
* `python/export_model_weights.py` — extraction of logistic-regression
  coefficients into a JSON weight bundle, together with its thresholds;
* `python/respiratory_pattern_classification.py` — the BIDMC per-subject
  feature extraction and the per-session aggregation of app-exported logs;
* `download_coco_model.py` — the best-effort download loop.

Numeric values are embedded as rationals.  `np.std` takes a square root,
which is irrational in general; the embedding is therefore parametric in
a square-root function `sq : ℚ → ℚ` (standing for the float `sqrt`), so
every definition stays computable and theorems quantify over `sq`.
-/

namespace TMLEC

/-! Embedding of `create_sample_model.py` (lines 31–65): the rule that
labels a synthetic sample abnormal. The python code counts five indicator
conditions (`abnormal_factors`) and labels the sample `1` when the count
is at least two. -/

/-- Number of abnormal factors counted by `create_sample_model.py`
(lines 41–61): bradypnea, tachypnea, high irregularity, high amplitude
variation, high velocity. -/
def abnormalFactors (breathing_rate irregularity amplitude_var velocity : ℚ) : ℕ :=
  (if breathing_rate < 10 then 1 else 0) +
  (if breathing_rate > 24 then 1 else 0) +
  (if irregularity > 2/5 then 1 else 0) +
  (if amplitude_var > 40 then 1 else 0) +
  (if velocity > 8 then 1 else 0)

/-- Label assigned at lines 63–65 of `create_sample_model.py`:
`1` (abnormal) when two or more abnormal factors hold, else `0`. -/
def sampleLabel (breathing_rate irregularity amplitude_var velocity : ℚ) : ℕ :=
  if 2 ≤ abnormalFactors breathing_rate irregularity amplitude_var velocity then 1 else 0

/-- Spec-side count of the four criteria of the voting rule as the spec
words them: rate out of the 10–24 band is a single criterion. -/
def specCriteriaCount (breathing_rate irregularity amplitude_var velocity : ℚ) : ℕ :=
  (if breathing_rate < 10 ∨ breathing_rate > 24 then 1 else 0) +
  (if irregularity > 2/5 then 1 else 0) +
  (if amplitude_var > 40 then 1 else 0) +
  (if velocity > 8 then 1 else 0)

/-! Embedding of `export_model_weights.py`. -/

/-- Feature names fixed at line 39 of `export_model_weights.py`. -/
def feature_names : List String :=
  ["breathing_rate", "irregularity_index", "amplitude_variation", "avg_velocity"]

/-- Default thresholds of `export_model_weights.py` lines 50–56. -/
def defaultThresholds : List (String × ℚ) :=
  [("BRADYPNEA_THRESHOLD", 10),
   ("TACHYPNEA_THRESHOLD", 24),
   ("IRREGULARITY_THRESHOLD", 2/5),
   ("AMPLITUDE_VARIATION_THRESHOLD", 40),
   ("VELOCITY_THRESHOLD", 8)]

/-- Thresholds set by the script entry point, lines 93–99 of
`export_model_weights.py`. -/
def mainThresholds : List (String × ℚ) :=
  [("BRADYPNEA_THRESHOLD", 10),
   ("TACHYPNEA_THRESHOLD", 24),
   ("IRREGULARITY_THRESHOLD", 2/5),
   ("AMPLITUDE_VARIATION_THRESHOLD", 40),
   ("VELOCITY_THRESHOLD", 8)]

/-- Result of `joblib.load`: either a fitted `LogisticRegression`, whose
`coef_` is a matrix (list of rows) and `intercept_` a vector, or an
object of some other type. -/
inductive LoadedModel where
  | logreg (coef : List (List ℚ)) (intercept : List ℚ)
  | otherType
deriving DecidableEq

/-- The JSON weight bundle assembled at lines 59–64 of
`export_model_weights.py` (association lists keep python's dict insertion
order). -/
structure WeightBundle where
  model_type : String
  weights : List (String × ℚ)
  thresholds : List (String × ℚ)
  feature_names : List String
deriving DecidableEq

/-- State of the JSON output file after `export_model_weights` runs. -/
inductive FileState where
  | untouched
  | midWrite
  | written (b : WeightBundle)
deriving DecidableEq

/-- Observable outcome of one call of `export_model_weights`:
the returned boolean, the state of the output file, and whether the
length-mismatch warning of line 42 was printed. -/
structure ExportOutcome where
  success : Bool
  file : FileState
  warned : Bool
deriving DecidableEq

/-- Coefficient-row and bias selection of lines 29–36 of
`export_model_weights.py`: the single row for binary models, row 1 and
intercept 1 otherwise; `none` models the `IndexError` raised when the
required index does not exist. -/
def extractCoefBias : LoadedModel → Option (List ℚ × ℚ)
  | .otherType => none
  | .logreg coef intercept =>
    if coef.length = 1 then
      match coef.head?, intercept.head? with
      | some row, some b => some (row, b)
      | _, _ => none
    else
      match coef.get? 1, intercept.get? 1 with
      | some row, some b => some (row, b)
      | _, _ => none

/-- Embedding of `export_model_weights` (lines 11–78).  `load` is the
result of `joblib.load` (`none` when loading raises), `th` the optional
threshold argument, `writeOk` whether opening and dumping the JSON file
succeeds.  Any caught exception yields `success = false`.  The explicit
`isinstance` rejection of line 24–26 and an extraction `IndexError` both
return `False` with the file untouched, so they share the
`extractCoefBias m = none` branch (`extractCoefBias` is `none` exactly
on those two cases). -/
def export_model_weights (load : Option LoadedModel)
    (th : Option (List (String × ℚ))) (writeOk : Bool) : ExportOutcome :=
  match load with
  | none => ⟨false, .untouched, false⟩
  | some m =>
    match extractCoefBias m with
    | none => ⟨false, .untouched, false⟩
    | some (row, b) =>
      let warned := row.length ≠ feature_names.length
      let weights := feature_names.zip row ++ [("bias", b)]
      let bundle : WeightBundle :=
        ⟨"logistic_regression", weights, th.getD defaultThresholds, feature_names⟩
      if writeOk then ⟨true, .written bundle, warned⟩
      else ⟨false, .midWrite, warned⟩

/-! Numeric helpers shared by both loaders.  `mean` and the population
variance mirror `np.mean` and `np.std`'s square; `std sq` applies the
square-root parameter to the variance. -/

/-- Arithmetic mean, `np.mean`.  For the empty list Lean's `x / 0 = 0`
yields `0` (the loaders only apply it to nonempty lists on paths where
its value is used). -/
def mean (xs : List ℚ) : ℚ := xs.sum / (xs.length : ℚ)

/-- Population variance, the square of `np.std`. -/
def variance (xs : List ℚ) : ℚ := mean (xs.map (fun x => (x - mean xs) ^ 2))

/-- Standard deviation `np.std`, parametric in the square root. -/
def std (sq : ℚ → ℚ) (xs : List ℚ) : ℚ := sq (variance xs)

/-- Maximum of a list (`np.max`); `0` on the empty list, which the code
never hits thanks to its nonemptiness guards. -/
def listMax : List ℚ → ℚ
  | [] => 0
  | x :: xs => xs.foldl max x

/-- Minimum of a list (`np.min`). -/
def listMin : List ℚ → ℚ
  | [] => 0
  | x :: xs => xs.foldl min x

/-- Consecutive differences, `np.diff`. -/
def diffs : List ℚ → List ℚ
  | [] => []
  | [_] => []
  | a :: b :: rest => (b - a) :: diffs (b :: rest)

/-- Python index normalisation for slices: negative indices count from
the end, then both ends are clamped to `[0, n]`. -/
def pyIdx (n : ℕ) (i : ℤ) : ℕ :=
  if i < 0 then ((n : ℤ) + i).toNat else min i.toNat n

/-- Python slice `l[a:b]` (step 1). -/
def pySlice (l : List ℚ) (a b : ℤ) : List ℚ :=
  (l.take (pyIdx l.length b)).drop (pyIdx l.length a)

/-! Embedding of `load_bidmc_data` (`respiratory_pattern_classification.py`
lines 29–138).  A `SubjectInput` holds what the four file reads of one
subject yield: `none` marks a read that raises (missing file or column). -/

/-- `dropSep sep s` returns the remainder of `s` after an initial
occurrence of `sep`, or `none` when `s` does not start with `sep`. -/
def dropSep : List Char → List Char → Option (List Char)
  | [], s => some s
  | _ :: _, [] => none
  | c :: cs, d :: ds => if c = d then dropSep cs ds else none

/-- Worker for python `str.split(sep)` with a nonempty separator,
structurally recursive on a fuel bound of at least the input length. -/
def splitGo (sep : List Char) : ℕ → List Char → List Char → List (List Char)
  | 0, acc, _ => [acc.reverse]
  | fuel + 1, acc, s =>
    match s with
    | [] => [acc.reverse]
    | c :: rest =>
      match dropSep sep s with
      | some remaining => acc.reverse :: splitGo sep fuel [] remaining
      | none => splitGo sep fuel (c :: acc) rest

/-- Python `s.split(sep)` for a nonempty separator `sep`. -/
def pySplit (sep s : String) : List String :=
  (splitGo sep.data (s.data.length + 1) [] s.data).map String.mk

/-- Python `str.strip()`. -/
def pyStrip (s : String) : String :=
  String.mk (((s.data.dropWhile Char.isWhitespace).reverse.dropWhile
    Char.isWhitespace).reverse)

/-- Field extraction `line.split(': ')[1].strip()` of lines 39, 46, 47;
`none` models the `IndexError` when the separator is absent. -/
def splitField (line : String) : Option String :=
  ((pySplit ": " line).get? 1).map pyStrip

/-- Python substring test `sub in s` for nonempty `sub`. -/
def pyContains (sub s : String) : Bool := (pySplit sub s).length ≥ 2

/-- Decimal value of one digit character. -/
def digitVal (c : Char) : Option ℕ :=
  if c.isDigit then some (c.toNat - '0'.toNat) else none

/-- Decimal reading of a nonempty all-digit character list. -/
def digitsToNat : List Char → Option ℕ
  | [] => none
  | cs =>
    cs.foldl (fun acc c =>
      match acc, digitVal c with
      | some n, some d => some (10 * n + d)
      | _, _ => none) (some 0)

/-- Python `int(...)` on an already-stripped string: an optional sign
followed by decimal digits, `none` when the call raises `ValueError`. -/
def pyInt (s : String) : Option ℤ :=
  match s.data with
  | '-' :: rest => (digitsToNat rest).map (fun n => -(n : ℤ))
  | '+' :: rest => (digitsToNat rest).map (fun n => (n : ℤ))
  | cs => (digitsToNat cs).map (fun n => (n : ℤ))

/-- Parsed subject header of the `_Fix.txt` file. -/
structure FixInfo where
  age : ℤ
  gender : String
  location : String
deriving DecidableEq

/-- Header parsing of lines 37–47: age from line 5 with the `'90+'`/50
fallback of lines 40–44, gender from line 6, location from line 7;
`none` when an index or split raises. -/
def parseFix (lines : List String) : Option FixInfo :=
  match lines.get? 5 with
  | none => none
  | some l5 =>
    match splitField l5 with
    | none => none
    | some age_line =>
      let age : ℤ :=
        match pyInt age_line with
        | some a => a
        | none => if pyContains "90+" age_line then 90 else 50
      match lines.get? 6 with
      | none => none
      | some l6 =>
        match splitField l6 with
        | none => none
        | some gender =>
          match lines.get? 7 with
          | none => none
          | some l7 =>
            match splitField l7 with
            | none => none
            | some location => some ⟨age, gender, location⟩

/-- The breath loop of lines 64–83: for each annotation row whose two
cells are integers (`isinstance` checks) with `start < end`, slice the
signal; on a nonempty segment record the duration `(end-start)/125` and
the amplitude `max - min`, and on a segment of length `> 1` the velocity
`max |diff|`.  Returns `(durations, amplitudes, velocities)`. -/
def breathMetrics (resp_signal : List ℚ) (breaths : List (Option ℤ × Option ℤ)) :
    List ℚ × List ℚ × List ℚ :=
  breaths.foldl (fun acc row =>
    match row with
    | (some s, some e) =>
      if s < e then
        let seg := pySlice resp_signal s e
        if seg ≠ [] then
          let durations := acc.1 ++ [((e - s : ℤ) : ℚ) / 125]
          let amps := acc.2.1 ++ [listMax seg - listMin seg]
          let vels :=
            if seg.length > 1 then acc.2.2 ++ [listMax ((diffs seg).map (fun x => |x|))]
            else acc.2.2
          (durations, amps, vels)
        else acc
      else acc
    | _ => acc) ([], [], [])

/-- Line 95: `np.std(amps)/avg if avg > 0 else 0` with `avg = mean amps`. -/
def bidmcAmpVar (sq : ℚ → ℚ) (amps : List ℚ) : ℚ :=
  if mean amps > 0 then std sq amps / mean amps else 0

/-- Line 96: `np.std(durs)/mean(durs) if mean(durs) > 0 else 0`. -/
def bidmcDurVar (sq : ℚ → ℚ) (durs : List ℚ) : ℚ :=
  if mean durs > 0 then std sq durs / mean durs else 0

/-- The labeling rule of lines 104–110 of the BIDMC loader. -/
def is_abnormal (breathing_rate ampVar durVar : ℚ) : Bool :=
  decide (breathing_rate < 10) || decide (breathing_rate > 24) ||
  decide (ampVar > 2/5) || decide (durVar > 2/5)

/-- The per-subject record built at lines 112–124, with exactly the
eleven keys of the python dict, in insertion order. -/
structure SubjectRecord where
  subject_id : ℕ
  age : ℤ
  gender : ℕ
  breathing_rate : ℚ
  avg_amplitude : ℚ
  max_amplitude : ℚ
  min_amplitude : ℚ
  avg_velocity : ℚ
  amplitude_variability : ℚ
  duration_variability : ℚ
  abnormal : ℕ
deriving DecidableEq

/-- Raw inputs for one subject: the four file reads.  `none` marks a
read that raises an exception (missing file, missing column). -/
structure SubjectInput where
  subject_id : ℕ
  fixLines : Option (List String)
  signals : Option (List ℚ)
  numerics : Option (List ℚ)
  breaths : Option (List (Option ℤ × Option ℤ))
deriving DecidableEq

/-- Body of the `try` at lines 35–127 for one subject: `none` when the
subject raises or when one of the three metric lists is empty (line 85's
guard fails and nothing is appended). -/
def processSubject (sq : ℚ → ℚ) (s : SubjectInput) : Option SubjectRecord :=
  match s.fixLines with
  | none => none
  | some lines =>
    match parseFix lines with
    | none => none
    | some info =>
      match s.signals with
      | none => none
      | some resp_signal =>
        match s.numerics with
        | none => none
        | some _numerics =>
          match s.breaths with
          | none => none
          | some breaths =>
            let m := breathMetrics resp_signal breaths
            if m.1 ≠ [] ∧ m.2.1 ≠ [] ∧ m.2.2 ≠ [] then
              let breathing_rate := 60 / mean m.1
              let ampVar := bidmcAmpVar sq m.2.1
              let durVar := bidmcDurVar sq m.1
              some { subject_id := s.subject_id
                     age := info.age
                     gender := if info.gender = "M" then 1 else 0
                     breathing_rate := breathing_rate
                     avg_amplitude := mean m.2.1
                     max_amplitude := listMax m.2.1
                     min_amplitude := listMin m.2.1
                     avg_velocity := mean m.2.2
                     amplitude_variability := ampVar
                     duration_variability := durVar
                     abnormal := if is_abnormal breathing_rate ampVar durVar then 1 else 0 }
            else none

/-- The `try`/`except` accumulation pattern shared by the three loops:
starting from an empty list, append the record of each item whose
processing succeeds, and keep going past the items that raise. -/
def collectSome {α β : Type} (f : α → Option β) (l : List α) : List β :=
  l.foldl (fun acc x =>
    match f x with
    | some r => acc ++ [r]
    | none => acc) []

/-- The subject loop of lines 34–131: append on success, log and continue
on failure. -/
def load_bidmc_data (sq : ℚ → ℚ) (inputs : List SubjectInput) : List SubjectRecord :=
  collectSome (processSubject sq) inputs

/-! Embedding of `load_qr_respiratory_data` (lines 202–300).  A `QRFile`
holds the outcome of the ad hoc header scan of lines 226–252 (absent
lines leave a field `None` = `none`), whether some line contains
`timestamp` (otherwise `header_index` is unbound and line 255 raises a
`NameError`), whether a malformed header line makes `int(...)`/`float(...)`
raise, and the parsed data rows (`none` when `read_csv` fails or a
needed column is missing). -/

/-- One data row of the per-session CSV. -/
structure QRRow where
  timestamp : ℚ
  amplitude : ℚ
  velocity : ℚ
  breathing_phase : String
deriving DecidableEq

/-- One app-exported log file, as the header scan leaves it. -/
structure QRFile where
  path : String
  patient_id : Option String
  age : Option ℤ
  gender : Option String
  health_status : Option String
  total_duration : Option ℚ
  breathing_rate : Option ℚ
  avg_amplitude : Option ℚ
  max_amplitude : Option ℚ
  min_amplitude : Option ℚ
  total_breaths : Option ℤ
  headerRaises : Bool
  hasTimestampLine : Bool
  data : Option (List QRRow)
deriving DecidableEq

/-- Maximal runs of consecutive rows sharing one `breathing_phase`
(the `groupby` on the cumulative sum of phase changes, line 264). -/
def phaseRuns : List QRRow → List (List QRRow)
  | [] => []
  | r :: rest =>
    match phaseRuns rest with
    | [] => [[r]]
    | g :: gs =>
      match g.head? with
      | some h =>
        if h.breathing_phase = r.breathing_phase then (r :: g) :: gs
        else [r] :: g :: gs
      | none => [r] :: g :: gs

/-- Duration of one run, lines 267–271: last minus first timestamp, and
only for runs holding more than one sample. -/
def runDuration (g : List QRRow) : Option ℚ :=
  if g.length > 1 then
    match g.head?, g.getLast? with
    | some a, some b => some (b.timestamp - a.timestamp)
    | _, _ => none
  else none

/-- The `phase_durations` list of lines 265–271. -/
def phaseDurations (rows : List QRRow) : List ℚ :=
  (phaseRuns rows).filterMap runDuration

/-- Line 261: `np.std(amplitudes)/avg_amplitude if avg_amplitude > 0 else 0`
with the header's average amplitude as denominator. -/
def qrAmpVar (sq : ℚ → ℚ) (amplitudes : List ℚ) (avg_amplitude : ℚ) : ℚ :=
  if avg_amplitude > 0 then std sq amplitudes / avg_amplitude else 0

/-- Line 273: `np.std(ds)/np.mean(ds) if ds and np.mean(ds) > 0 else 0`. -/
def qrDurVar (sq : ℚ → ℚ) (durs : List ℚ) : ℚ :=
  if durs ≠ [] ∧ mean durs > 0 then std sq durs / mean durs else 0

/-- Python `v if v else 0` on an optional number: `None` and `0`
both give `0`, so this is exactly `getD 0`. -/
def qTruthy (x : Option ℚ) : ℚ := x.getD 0

/-- Python `v if v else 0` on an optional integer. -/
def zTruthy (x : Option ℤ) : ℤ := x.getD 0

/-- Python `v if v else d` on an optional string: `None` and the empty
string are falsy. -/
def sTruthy (x : Option String) (dflt : String) : String :=
  match x with
  | some s => if s = "" then dflt else s
  | none => dflt

/-- Python `os.path.basename` on a posix path. -/
def pyBasename (s : String) : String := ((pySplit "/" s).getLast?).getD s

/-- The per-session summary dict of lines 276–289, with exactly its
twelve keys in insertion order. -/
structure QRRecord where
  patient_id : String
  age : ℤ
  gender : ℕ
  health_status : String
  breathing_rate : ℚ
  avg_amplitude : ℚ
  max_amplitude : ℚ
  min_amplitude : ℚ
  avg_velocity : ℚ
  amplitude_variability : ℚ
  duration_variability : ℚ
  file_path : String
deriving DecidableEq

/-- Body of the `try` at lines 208–292 for one log file, up to the
append at line 291 (the `print` after the append cannot undo it):
`none` when an exception is raised before the append — a malformed
header, no `timestamp` line, unreadable data rows, or an absent
`Average Amplitude` header (then line 261 compares `None > 0`, a
`TypeError`). -/
def processQRFile (sq : ℚ → ℚ) (f : QRFile) : Option QRRecord :=
  if f.headerRaises then none
  else if ¬ f.hasTimestampLine then none
  else
    match f.data with
    | none => none
    | some rows =>
      let amplitudes := rows.map QRRow.amplitude
      let velocities := rows.map (fun r => |r.velocity|)
      match f.avg_amplitude with
      | none => none
      | some avgAmp =>
        let ampVar := qrAmpVar sq amplitudes avgAmp
        let durVar := qrDurVar sq (phaseDurations rows)
        some { patient_id := sTruthy f.patient_id "0"
               age := zTruthy f.age
               gender := if f.gender = some "Male" then 1 else 0
               health_status := sTruthy f.health_status "Unknown"
               breathing_rate := qTruthy f.breathing_rate
               avg_amplitude := qTruthy (some avgAmp)
               max_amplitude := qTruthy f.max_amplitude
               min_amplitude := qTruthy f.min_amplitude
               avg_velocity := mean velocities
               amplitude_variability := ampVar
               duration_variability := durVar
               file_path := pyBasename f.path }

/-- The file loop of lines 207–295: append on success, log and continue
on failure. -/
def collectQR (sq : ℚ → ℚ) (files : List QRFile) : List QRRecord :=
  collectSome (processQRFile sq) files

/-- Lines 297–300: return the collected records, or raise `ValueError`
when none could be loaded. -/
def load_qr_respiratory_data (sq : ℚ → ℚ) (files : List QRFile) :
    Except Unit (List QRRecord) :=
  let all_data := collectQR sq files
  if all_data ≠ [] then .ok all_data else .error ()

/-! Embedding of the download loop of `download_coco_model.py`
(lines 62–68). -/

/-- One entry of the `models` list.  Modelled from the spec: the network
transfer performed by `download_file` lives outside the repository's
pure logic, so its success is abstracted by the field `ok`. -/
structure ModelEntry where
  url : String
  filename : String
  ok : Bool
deriving DecidableEq

/-- One `download_file` call inside the `try` of lines 64–68: the
downloaded filename on success, `none` when it raises. -/
def attemptDownload (m : ModelEntry) : Option String :=
  if m.ok then some m.filename else none

/-- The loop of lines 62–68: `except` prints and `continue`s, so the
loop collects exactly the successfully downloaded files. -/
def downloadAll (models : List ModelEntry) : List String :=
  collectSome attemptDownload models

/-! Spec-side formulas for the refinement comparison of the per-session
aggregation: these follow the words of the claim, to be compared with
the definitions taken from the source. -/

/-- Spec-side: durations (last minus first timestamp) of all consecutive
same-phase runs, singleton runs included (the claim does not restrict to
runs of more than one sample). -/
def specRunDurations (rows : List QRRow) : List ℚ :=
  (phaseRuns rows).map (fun g =>
    ((g.getLast?.map QRRow.timestamp).getD 0) -
      ((g.head?.map QRRow.timestamp).getD 0))

/-- Spec-side: coefficient of variation, standard deviation over mean. -/
def specCV (sq : ℚ → ℚ) (xs : List ℚ) : ℚ := std sq xs / mean xs

/-- Spec-side: standard deviation of the amplitude samples divided by
the header's average amplitude. -/
def specAmpVar (sq : ℚ → ℚ) (amps : List ℚ) (avg : ℚ) : ℚ := std sq amps / avg

/-! Concrete fixtures used by the witness and counterexample theorems. -/

/-- Square-root parameter instance sending everything to `0`. -/
def sqZ : ℚ → ℚ := fun _ => 0

/-- Square-root parameter instance: the identity, which agrees with the
real square root on `0` and `1`. -/
def sqId : ℚ → ℚ := fun x => x

/-- A subject whose four reads all succeed. -/
def wSubj : SubjectInput :=
  { subject_id := 7
    fixLines := some ["l0", "l1", "l2", "l3", "l4", "Age: 53", "Gender: M", "Location: micu"]
    signals := some [0, 5]
    numerics := some [20]
    breaths := some [(some 0, some 2)] }

/-- A subject whose `_Fix.txt` read raises (missing file). -/
def badSubj : SubjectInput :=
  { subject_id := 3, fixLines := none, signals := none, numerics := none, breaths := none }

/-- A log file that parses successfully. -/
def wFile : QRFile :=
  { path := "respiratory_data/respiratory_data_1.csv"
    patient_id := some "p1"
    age := some 30
    gender := some "Male"
    health_status := none
    total_duration := some 60
    breathing_rate := some 15
    avg_amplitude := some 2
    max_amplitude := some 5
    min_amplitude := some 1
    total_breaths := some 10
    headerRaises := false
    hasTimestampLine := true
    data := some [⟨0, 2, 3, "in"⟩, ⟨1, 2, -3, "in"⟩] }

/-- A log file whose header scan raises. -/
def badQRFile : QRFile :=
  { path := "respiratory_data/respiratory_data_2.csv"
    patient_id := none, age := none, gender := none, health_status := none
    total_duration := none, breathing_rate := none, avg_amplitude := none
    max_amplitude := none, min_amplitude := none, total_breaths := none
    headerRaises := true, hasTimestampLine := true, data := none }

/-- A download entry that succeeds. -/
def okEntry : ModelEntry := ⟨"https://example.org/a", "yolov5s_coco.tflite", true⟩

/-- A download entry whose transfer raises. -/
def badEntry : ModelEntry := ⟨"https://example.org/b", "yolov5n_coco.tflite", false⟩

/-- Data rows of the counterexample log: one two-sample run of phase
`a` (duration 2) followed by a single-sample run of phase `b`. -/
def cxRows : List QRRow := [⟨0, 1, 1, "a"⟩, ⟨2, 1, 1, "a"⟩, ⟨3, 1, 1, "b"⟩]

/-- The counterexample log file: parses successfully, all variances the
code or the spec formula take a square root of are `0` or `1`. -/
def cxFile : QRFile :=
  { path := "respiratory_data/respiratory_data_3.csv"
    patient_id := some "p3"
    age := some 40
    gender := some "Female"
    health_status := some "Healthy"
    total_duration := some 3
    breathing_rate := some 16
    avg_amplitude := some 1
    max_amplitude := some 1
    min_amplitude := some 1
    total_breaths := some 2
    headerRaises := false
    hasTimestampLine := true
    data := some cxRows }

/-- The record `processSubject` produces for `wSubj` (with `sqZ`). -/
def wRec : SubjectRecord := ⟨7, 53, 1, 3750, 5, 5, 5, 5, 0, 0, 1⟩

/-- The record `processQRFile` produces for `wFile` (with `sqZ`). -/
def wQRRec : QRRecord :=
  ⟨"p1", 30, 1, "Unknown", 15, 2, 5, 1, 3, 0, 0, "respiratory_data_1.csv"⟩

/-! Helper lemmas. -/

lemma collectSome_go {α β : Type} (f : α → Option β) (l : List α) (acc : List β) :
    l.foldl (fun a x =>
      match f x with
      | some r => a ++ [r]
      | none => a) acc = acc ++ l.filterMap f := by
  induction l generalizing acc with
  | nil => simp
  | cons x xs ih =>
    simp only [List.foldl_cons, List.filterMap_cons]
    cases h : f x with
    | none => simp [ih]
    | some r => simp [ih]

lemma collectSome_eq_filterMap {α β : Type} (f : α → Option β) (l : List α) :
    collectSome f l = l.filterMap f := by
  unfold collectSome
  simpa using collectSome_go f l []

lemma collectSome_skip {α β : Type} (f : α → Option β) (xs ys : List α) (bad : α)
    (h : f bad = none) :
    collectSome f (xs ++ bad :: ys) = collectSome f xs ++ collectSome f ys := by
  simp [collectSome_eq_filterMap, List.filterMap_append, List.filterMap_cons, h]

lemma map_fst_zip_take {α β : Type} (a : List α) (b : List β) :
    (a.zip b).map Prod.fst = a.take b.length := by
  induction a generalizing b with
  | nil => simp
  | cons x xs ih =>
    cases b with
    | nil => simp
    | cons y ys => simp [ih]

/-! Claim theorems. -/

/-- C1: the rule-based classifier of `create_sample_model.py` labels a
sample abnormal exactly when at least two of the four spec criteria
(rate outside 10–24, irregularity > 0.4, amplitude variation > 40,
velocity > 8) hold, and normal whenever at most one holds. -/
theorem sampleLabel_two_of_four (r i a v : ℚ) :
    (sampleLabel r i a v = 1 ↔ 2 ≤ specCriteriaCount r i a v) ∧
    (specCriteriaCount r i a v ≤ 1 → sampleLabel r i a v = 0) := by
  have hkey : abnormalFactors r i a v = specCriteriaCount r i a v := by
    unfold abnormalFactors specCriteriaCount
    by_cases h1 : r < 10
    · have h2 : ¬ r > 24 := by linarith
      simp [h1, h2]
    · by_cases h2 : r > 24
      · simp [h1, h2]
      · simp [h1, h2]
  unfold sampleLabel
  rw [hkey]
  constructor
  · by_cases h : 2 ≤ specCriteriaCount r i a v <;> simp [h]
  · intro h
    have h2 : ¬ 2 ≤ specCriteriaCount r i a v := by omega
    simp [h2]

/-- Witness for C1: a sample meeting two criteria is labeled `1`, one
meeting a single criterion is labeled `0`. -/
theorem sampleLabel_two_of_four_witness :
    sampleLabel 15 (1/2) 50 0 = 1 ∧ sampleLabel 15 (1/2) 0 0 = 0 := by
  constructor
  · exact (sampleLabel_two_of_four 15 (1/2) 50 0).1.mpr (by norm_num [specCriteriaCount])
  · exact (sampleLabel_two_of_four 15 (1/2) 0 0).2 (by norm_num [specCriteriaCount])

/-- C3: both the default thresholds and the ones set by the script entry
point are exactly the five named values 10, 24, 0.4, 40, 8, and these
are the cutoffs the sample-labeling rule votes on. -/
theorem thresholds_match_rule :
    defaultThresholds =
      [("BRADYPNEA_THRESHOLD", 10), ("TACHYPNEA_THRESHOLD", 24),
       ("IRREGULARITY_THRESHOLD", 2/5), ("AMPLITUDE_VARIATION_THRESHOLD", 40),
       ("VELOCITY_THRESHOLD", 8)] ∧
    mainThresholds = defaultThresholds ∧
    ∀ r i a v : ℚ, abnormalFactors r i a v =
      (if r < (defaultThresholds.lookup "BRADYPNEA_THRESHOLD").getD 0 then 1 else 0) +
      (if r > (defaultThresholds.lookup "TACHYPNEA_THRESHOLD").getD 0 then 1 else 0) +
      (if i > (defaultThresholds.lookup "IRREGULARITY_THRESHOLD").getD 0 then 1 else 0) +
      (if a > (defaultThresholds.lookup "AMPLITUDE_VARIATION_THRESHOLD").getD 0 then 1 else 0) +
      (if v > (defaultThresholds.lookup "VELOCITY_THRESHOLD").getD 0 then 1 else 0) := by
  refine ⟨rfl, rfl, ?_⟩
  intro r i a v
  have h1 : (defaultThresholds.lookup "BRADYPNEA_THRESHOLD").getD 0 = 10 := by rfl
  have h2 : (defaultThresholds.lookup "TACHYPNEA_THRESHOLD").getD 0 = 24 := by rfl
  have h3 : (defaultThresholds.lookup "IRREGULARITY_THRESHOLD").getD 0 = 2/5 := by rfl
  have h4 : (defaultThresholds.lookup "AMPLITUDE_VARIATION_THRESHOLD").getD 0 = 40 := by rfl
  have h5 : (defaultThresholds.lookup "VELOCITY_THRESHOLD").getD 0 = 8 := by rfl
  rw [h1, h2, h3, h4, h5]
  rfl

/-- C2 (amended): for every successful export whose extracted
coefficient row has exactly four entries, the written bundle maps each
of the four feature names to its coefficient plus `bias` to the
intercept, carries the thresholds mapping, the feature-name list and
`model_type = "logistic_regression"`, and no mismatch warning fires. -/
theorem export_bundle_shape (m : LoadedModel) (th : Option (List (String × ℚ)))
    (row : List ℚ) (bv : ℚ)
    (hrow : extractCoefBias m = some (row, bv)) (h4 : row.length = 4) :
    export_model_weights (some m) th true =
      ⟨true, FileState.written ⟨"logistic_regression",
        feature_names.zip row ++ [("bias", bv)], th.getD defaultThresholds,
        feature_names⟩, false⟩ ∧
    (feature_names.zip row ++ [("bias", bv)]).map Prod.fst =
      feature_names ++ ["bias"] := by
  constructor
  · cases m with
    | otherType => simp [extractCoefBias] at hrow
    | logreg coef intercept =>
      simp [export_model_weights, hrow, h4, feature_names]
  · rw [List.map_append, map_fst_zip_take, h4]
    rfl

/-- Witness for C2: a binary model with four coefficients exports the
fully populated bundle. -/
theorem export_bundle_shape_witness :
    export_model_weights (some (LoadedModel.logreg [[1, 2, 3, 4]] [5])) none true =
      ⟨true, FileState.written ⟨"logistic_regression",
        [("breathing_rate", 1), ("irregularity_index", 2), ("amplitude_variation", 3),
         ("avg_velocity", 4), ("bias", 5)], defaultThresholds, feature_names⟩, false⟩ :=
  (export_bundle_shape (LoadedModel.logreg [[1, 2, 3, 4]] [5]) none
    [1, 2, 3, 4] 5 rfl rfl).1

/-- Counterexample for C2 as stated: a successful export of a
three-coefficient model writes a bundle whose `weights` has no entry for
the fourth feature name `avg_velocity`, so not every successful export
maps all four feature names. -/
theorem export_missing_feature_cex :
    (export_model_weights (some (LoadedModel.logreg [[1, 2, 3]] [0])) none true).success
      = true ∧
    (export_model_weights (some (LoadedModel.logreg [[1, 2, 3]] [0])) none true).file =
      FileState.written ⟨"logistic_regression",
        [("breathing_rate", 1), ("irregularity_index", 2), ("amplitude_variation", 3),
         ("bias", 0)], defaultThresholds, feature_names⟩ ∧
    "avg_velocity" ∈ feature_names ∧
    "avg_velocity" ∉
      ["breathing_rate", "irregularity_index", "amplitude_variation", "bias"] :=
  ⟨rfl, rfl, by decide, by decide⟩

/-- C8: when the extracted coefficient row does not have four entries,
the export still succeeds and writes the file, only warns, and the
written `weights` pairs the coefficients positionally with the feature
names — extra coefficients are dropped and missing ones leave feature
names absent (the key list is truncated to the row length). -/
theorem export_mismatch_tolerated (m : LoadedModel) (th : Option (List (String × ℚ)))
    (row : List ℚ) (bv : ℚ)
    (hrow : extractCoefBias m = some (row, bv)) (hne : row.length ≠ 4) :
    (export_model_weights (some m) th true).success = true ∧
    (export_model_weights (some m) th true).warned = true ∧
    (export_model_weights (some m) th true).file =
      FileState.written ⟨"logistic_regression",
        feature_names.zip row ++ [("bias", bv)], th.getD defaultThresholds,
        feature_names⟩ ∧
    (feature_names.zip row ++ [("bias", bv)]).map Prod.fst =
      feature_names.take row.length ++ ["bias"] := by
  have hout : export_model_weights (some m) th true =
      ⟨true, FileState.written ⟨"logistic_regression",
        feature_names.zip row ++ [("bias", bv)], th.getD defaultThresholds,
        feature_names⟩, true⟩ := by
    cases m with
    | otherType => simp [extractCoefBias] at hrow
    | logreg coef intercept =>
      simp [export_model_weights, hrow, feature_names, hne]
  refine ⟨by rw [hout], by rw [hout], by rw [hout], ?_⟩
  rw [List.map_append, map_fst_zip_take]
  rfl

/-- Witness for C8: a three-coefficient model exports successfully with
a warning and a truncated key list. -/
theorem export_mismatch_tolerated_witness :
    (export_model_weights (some (LoadedModel.logreg [[7, 8, 9]] [1])) none true).success
      = true ∧
    (export_model_weights (some (LoadedModel.logreg [[7, 8, 9]] [1])) none true).warned
      = true ∧
    (export_model_weights (some (LoadedModel.logreg [[7, 8, 9]] [1])) none true).file =
      FileState.written ⟨"logistic_regression",
        [("breathing_rate", 7), ("irregularity_index", 8), ("amplitude_variation", 9),
         ("bias", 1)], defaultThresholds, feature_names⟩ ∧
    (feature_names.zip [(7 : ℚ), 8, 9] ++ [("bias", (1 : ℚ))]).map Prod.fst =
      feature_names.take 3 ++ ["bias"] :=
  export_mismatch_tolerated (LoadedModel.logreg [[7, 8, 9]] [1]) none
    [7, 8, 9] 1 rfl (by decide)

/-- C9: the export returns `True` only when the file write completed;
loading failures, a non-LogisticRegression object, and extraction
failures all return `False` with the output file untouched, and a write
failure returns `False`. -/
theorem export_success_iff_written (load : Option LoadedModel)
    (th : Option (List (String × ℚ))) (writeOk : Bool) :
    ((export_model_weights load th writeOk).success = true →
      writeOk = true ∧
        ∃ b, (export_model_weights load th writeOk).file = FileState.written b) ∧
    (load = none →
      export_model_weights load th writeOk = ⟨false, FileState.untouched, false⟩) ∧
    (load = some LoadedModel.otherType →
      export_model_weights load th writeOk = ⟨false, FileState.untouched, false⟩) ∧
    (∀ m, load = some m → extractCoefBias m = none →
      export_model_weights load th writeOk = ⟨false, FileState.untouched, false⟩) ∧
    (writeOk = false → (export_model_weights load th writeOk).success = false) := by
  cases load with
  | none => simp [export_model_weights]
  | some m =>
    cases hex : extractCoefBias m with
    | none =>
      have hout : export_model_weights (some m) th writeOk =
          ⟨false, FileState.untouched, false⟩ := by
        simp [export_model_weights, hex]
      refine ⟨?_, by simp, fun _ => hout, fun _ _ _ => hout, ?_⟩
      · intro hs
        rw [hout] at hs
        cases hs
      · intro _
        rw [hout]
    | some rb =>
      obtain ⟨row, bv⟩ := rb
      refine ⟨?_, by simp, ?_, ?_, ?_⟩
      · intro hs
        cases writeOk with
        | false => simp [export_model_weights, hex] at hs
        | true =>
          exact ⟨rfl, ⟨⟨"logistic_regression", feature_names.zip row ++ [("bias", bv)],
            th.getD defaultThresholds, feature_names⟩,
            by simp [export_model_weights, hex]⟩⟩
      · intro hm
        injection hm with hm
        subst hm
        simp [extractCoefBias] at hex
      · intro m2 hm2 hx
        injection hm2 with hm2
        subst hm2
        rw [hx] at hex
        cases hex
      · intro hw
        subst hw
        simp [export_model_weights, hex]

/-- Witness for C9: loading a non-LogisticRegression object returns
`False` and leaves the output path untouched, and a successful run
returns `True` with the bundle written. -/
theorem export_success_iff_written_witness :
    export_model_weights (some LoadedModel.otherType) none true =
      ⟨false, FileState.untouched, false⟩ ∧
    ((export_model_weights (some (LoadedModel.logreg [[1, 2, 3, 4]] [0])) none true).success
        = true →
      (true = true ∧ ∃ b,
        (export_model_weights (some (LoadedModel.logreg [[1, 2, 3, 4]] [0])) none
          true).file = FileState.written b)) :=
  ⟨(export_success_iff_written (some LoadedModel.otherType) none true).2.2.1 rfl,
   fun h => (export_success_iff_written (some (LoadedModel.logreg [[1, 2, 3, 4]] [0]))
     none true).1 h⟩

/-- C4: in all three item loops (BIDMC subjects, app-exported log files,
model downloads) a raising item is skipped, the remaining items are
still processed, and the collected result is exactly the records of the
successfully processed items. -/
theorem per_item_error_isolation (sq : ℚ → ℚ) :
    (∀ inputs, load_bidmc_data sq inputs = inputs.filterMap (processSubject sq)) ∧
    (∀ xs bad ys, processSubject sq bad = none →
      load_bidmc_data sq (xs ++ bad :: ys) =
        load_bidmc_data sq xs ++ load_bidmc_data sq ys) ∧
    (∀ files, collectQR sq files = files.filterMap (processQRFile sq)) ∧
    (∀ fs badf gs, processQRFile sq badf = none →
      collectQR sq (fs ++ badf :: gs) = collectQR sq fs ++ collectQR sq gs) ∧
    (∀ fs badf gs, processQRFile sq badf = none →
      load_qr_respiratory_data sq (fs ++ badf :: gs) =
        load_qr_respiratory_data sq (fs ++ gs)) ∧
    (∀ ms, downloadAll ms = ms.filterMap attemptDownload) ∧
    (∀ ms badm ns, attemptDownload badm = none →
      downloadAll (ms ++ badm :: ns) = downloadAll ms ++ downloadAll ns) := by
  have hqr : ∀ fs badf gs, processQRFile sq badf = none →
      collectQR sq (fs ++ badf :: gs) = collectQR sq (fs ++ gs) := by
    intro fs badf gs hbad
    unfold collectQR
    simp [collectSome_eq_filterMap, List.filterMap_append, List.filterMap_cons, hbad]
  refine ⟨fun inputs => collectSome_eq_filterMap _ _,
    fun xs bad ys hbad => collectSome_skip _ _ _ _ hbad,
    fun files => collectSome_eq_filterMap _ _,
    fun fs badf gs hbad => collectSome_skip _ _ _ _ hbad,
    ?_,
    fun ms => collectSome_eq_filterMap _ _,
    fun ms badm ns hbad => collectSome_skip _ _ _ _ hbad⟩
  intro fs badf gs hbad
  unfold load_qr_respiratory_data
  rw [hqr fs badf gs hbad]

/-- Witness for C4: one failing item in each loop (a subject with a
missing header file, a log whose header scan raises, a failed download)
is skipped while its neighbours are kept. -/
theorem per_item_error_isolation_witness :
    processSubject sqZ badSubj = none ∧
    load_bidmc_data sqZ ([wSubj] ++ badSubj :: [wSubj]) =
      load_bidmc_data sqZ [wSubj] ++ load_bidmc_data sqZ [wSubj] ∧
    processQRFile sqZ badQRFile = none ∧
    collectQR sqZ ([wFile] ++ badQRFile :: []) =
      collectQR sqZ [wFile] ++ collectQR sqZ [] ∧
    attemptDownload badEntry = none ∧
    downloadAll ([okEntry] ++ badEntry :: [okEntry]) =
      downloadAll [okEntry] ++ downloadAll [okEntry] :=
  ⟨rfl, (per_item_error_isolation sqZ).2.1 [wSubj] badSubj [wSubj] rfl,
   rfl, (per_item_error_isolation sqZ).2.2.2.1 [wFile] badQRFile [] rfl,
   rfl, (per_item_error_isolation sqZ).2.2.2.2.2.2 [okEntry] badEntry [okEntry] rfl⟩

/-- C10: every variability metric divides only behind a positivity guard
on its denominator and is `0` otherwise, in all four places (BIDMC
amplitude/duration variability, per-session amplitude/duration
variability). -/
theorem variability_division_guards (sq : ℚ → ℚ) (xs : List ℚ) (avg : ℚ) :
    (mean xs ≤ 0 → bidmcAmpVar sq xs = 0) ∧
    (0 < mean xs → bidmcAmpVar sq xs = std sq xs / mean xs) ∧
    (mean xs ≤ 0 → bidmcDurVar sq xs = 0) ∧
    (0 < mean xs → bidmcDurVar sq xs = std sq xs / mean xs) ∧
    (avg ≤ 0 → qrAmpVar sq xs avg = 0) ∧
    (0 < avg → qrAmpVar sq xs avg = std sq xs / avg) ∧
    (xs = [] ∨ mean xs ≤ 0 → qrDurVar sq xs = 0) ∧
    (xs ≠ [] → 0 < mean xs → qrDurVar sq xs = std sq xs / mean xs) := by
  unfold bidmcAmpVar bidmcDurVar qrAmpVar qrDurVar
  refine ⟨fun h => if_neg (not_lt.mpr h), fun h => if_pos h,
    fun h => if_neg (not_lt.mpr h), fun h => if_pos h,
    fun h => if_neg (not_lt.mpr h), fun h => if_pos h,
    ?_, fun h1 h2 => if_pos ⟨h1, h2⟩⟩
  intro h
  apply if_neg
  rintro ⟨h1, h2⟩
  rcases h with h | h
  · exact h1 h
  · exact absurd h2 (not_lt.mpr h)

/-- Witness for C10: a singleton list with positive mean takes the
division branch, a nonpositive header average gives `0`. -/
theorem variability_division_guards_witness :
    bidmcAmpVar sqZ [2] = std sqZ [2] / mean [2] ∧ qrAmpVar sqZ [2] (-1) = 0 :=
  ⟨(variability_division_guards sqZ [2] (-1)).2.1
      (by norm_num [mean]),
   (variability_division_guards sqZ [2] (-1)).2.2.2.2.1 (by norm_num)⟩

/-- C5: every record the BIDMC loader produces carries the subject id,
the parsed age, a binary gender (`1` exactly for the string `M`), the
breathing rate `60 / mean breath duration`, the amplitude aggregates,
the velocity mean, the two variability metrics, and a binary abnormal
label — the eleven fields of `SubjectRecord` and nothing else. -/
theorem bidmc_record_contents (sq : ℚ → ℚ) (inp : SubjectInput) (r : SubjectRecord)
    (h : processSubject sq inp = some r) :
    ∃ lines info signal breaths,
      inp.fixLines = some lines ∧ parseFix lines = some info ∧
      inp.signals = some signal ∧ inp.breaths = some breaths ∧
      r.subject_id = inp.subject_id ∧
      r.age = info.age ∧
      r.gender = (if info.gender = "M" then 1 else 0) ∧
      r.breathing_rate = 60 / mean (breathMetrics signal breaths).1 ∧
      r.avg_amplitude = mean (breathMetrics signal breaths).2.1 ∧
      r.max_amplitude = listMax (breathMetrics signal breaths).2.1 ∧
      r.min_amplitude = listMin (breathMetrics signal breaths).2.1 ∧
      r.avg_velocity = mean (breathMetrics signal breaths).2.2 ∧
      r.amplitude_variability = bidmcAmpVar sq (breathMetrics signal breaths).2.1 ∧
      r.duration_variability = bidmcDurVar sq (breathMetrics signal breaths).1 ∧
      (r.gender = 0 ∨ r.gender = 1) ∧
      (r.abnormal = 0 ∨ r.abnormal = 1) := by
  unfold processSubject at h
  cases hfl : inp.fixLines with
  | none => rw [hfl] at h; simp at h
  | some lines =>
  rw [hfl] at h
  simp only [] at h
  cases hpf : parseFix lines with
  | none => rw [hpf] at h; simp at h
  | some info =>
  rw [hpf] at h
  simp only [] at h
  cases hsig : inp.signals with
  | none => rw [hsig] at h; simp at h
  | some signal =>
  rw [hsig] at h
  simp only [] at h
  cases hnum : inp.numerics with
  | none => rw [hnum] at h; simp at h
  | some nums =>
  rw [hnum] at h
  simp only [] at h
  cases hbr : inp.breaths with
  | none => rw [hbr] at h; simp at h
  | some breaths =>
  rw [hbr] at h
  simp only [] at h
  split at h
  case isFalse => simp at h
  case isTrue hne =>
  injection h with h
  subst h
  refine ⟨lines, info, signal, breaths, rfl, hpf, rfl, rfl, rfl, rfl, rfl, rfl, rfl,
    rfl, rfl, rfl, rfl, rfl, ?_, ?_⟩
  · by_cases hg : info.gender = "M" <;> simp [hg]
  · by_cases ha : is_abnormal (60 / mean (breathMetrics signal breaths).1)
        (bidmcAmpVar sq (breathMetrics signal breaths).2.1)
        (bidmcDurVar sq (breathMetrics signal breaths).1) = true <;> simp [ha]

/-- Witness for C5: a concrete subject whose reads all succeed yields
the concrete record `wRec`. -/
theorem bidmc_record_contents_witness :
    ∃ lines info signal breaths,
      wSubj.fixLines = some lines ∧ parseFix lines = some info ∧
      wSubj.signals = some signal ∧ wSubj.breaths = some breaths ∧
      wRec.subject_id = wSubj.subject_id ∧
      wRec.age = info.age ∧
      wRec.gender = (if info.gender = "M" then 1 else 0) ∧
      wRec.breathing_rate = 60 / mean (breathMetrics signal breaths).1 ∧
      wRec.avg_amplitude = mean (breathMetrics signal breaths).2.1 ∧
      wRec.max_amplitude = listMax (breathMetrics signal breaths).2.1 ∧
      wRec.min_amplitude = listMin (breathMetrics signal breaths).2.1 ∧
      wRec.avg_velocity = mean (breathMetrics signal breaths).2.2 ∧
      wRec.amplitude_variability = bidmcAmpVar sqZ (breathMetrics signal breaths).2.1 ∧
      wRec.duration_variability = bidmcDurVar sqZ (breathMetrics signal breaths).1 ∧
      (wRec.gender = 0 ∨ wRec.gender = 1) ∧
      (wRec.abnormal = 0 ∨ wRec.abnormal = 1) :=
  bidmc_record_contents sqZ wSubj wRec (by
    simp [processSubject, parseFix, splitField, pySplit, splitGo, dropSep, pyStrip,
      pyInt, digitsToNat, digitVal, breathMetrics, pySlice, pyIdx, listMax, listMin,
      diffs, mean, variance, std, bidmcAmpVar, bidmcDurVar, is_abnormal, sqZ, wSubj,
      wRec]
    norm_num)

/-- C6 (amended): for every log that parses successfully, the one
per-session record has `avg_velocity` the mean of the absolute velocity
samples; `amplitude_variability` the standard deviation of the amplitude
samples over the header average amplitude when that average is positive
and `0` otherwise; and `duration_variability` the coefficient of
variation of the durations of the consecutive same-phase runs holding
more than one sample, when at least one such run exists and their mean
duration is positive, and `0` otherwise. -/
theorem qr_aggregate_formulas (sq : ℚ → ℚ) (f : QRFile) (r : QRRecord)
    (h : processQRFile sq f = some r) :
    ∃ rows avg,
      f.data = some rows ∧ f.avg_amplitude = some avg ∧
      r.avg_velocity = mean (rows.map (fun x => |x.velocity|)) ∧
      r.amplitude_variability =
        (if avg > 0 then specAmpVar sq (rows.map QRRow.amplitude) avg else 0) ∧
      r.duration_variability =
        (if phaseDurations rows ≠ [] ∧ mean (phaseDurations rows) > 0 then
          specCV sq (phaseDurations rows) else 0) ∧
      phaseDurations rows = (phaseRuns rows).filterMap runDuration := by
  unfold processQRFile at h
  cases hhr : f.headerRaises with
  | true => rw [hhr] at h; simp at h
  | false =>
  rw [hhr] at h
  simp only [Bool.false_eq_true, if_false] at h
  cases hts : f.hasTimestampLine with
  | false => rw [hts] at h; simp at h
  | true =>
  rw [hts] at h
  simp only [not_true, if_false, if_neg] at h
  cases hd : f.data with
  | none => rw [hd] at h; simp at h
  | some rows =>
  rw [hd] at h
  simp only [] at h
  cases hav : f.avg_amplitude with
  | none => rw [hav] at h; simp at h
  | some avg =>
  rw [hav] at h
  simp only [] at h
  injection h with h
  subst h
  refine ⟨rows, avg, rfl, rfl, rfl, ?_, ?_, rfl⟩
  · unfold qrAmpVar specAmpVar
    rfl
  · unfold qrDurVar specCV
    rfl

/-- Witness for C6: a concrete log that parses successfully yields the
concrete record `wQRRec` and the stated formulas. -/
theorem qr_aggregate_formulas_witness :
    ∃ rows avg,
      wFile.data = some rows ∧ wFile.avg_amplitude = some avg ∧
      wQRRec.avg_velocity = mean (rows.map (fun x => |x.velocity|)) ∧
      wQRRec.amplitude_variability =
        (if avg > 0 then specAmpVar sqZ (rows.map QRRow.amplitude) avg else 0) ∧
      wQRRec.duration_variability =
        (if phaseDurations rows ≠ [] ∧ mean (phaseDurations rows) > 0 then
          specCV sqZ (phaseDurations rows) else 0) ∧
      phaseDurations rows = (phaseRuns rows).filterMap runDuration :=
  qr_aggregate_formulas sqZ wFile wQRRec (by
    simp [processQRFile, wFile, wQRRec, sTruthy, qTruthy, zTruthy, pyBasename,
      pySplit, splitGo, dropSep, qrAmpVar, qrDurVar, std, variance, mean,
      phaseDurations, phaseRuns, runDuration, sqZ])

/-- Counterexample for C6 as stated: for `cxFile` (which parses
successfully) the code's `duration_variability` is `0` — the singleton
phase-`b` run is dropped by the `len(group) > 1` filter — while the
claim's formula, the coefficient of variation over all consecutive
same-phase run durations, gives `1`.  The square-root parameter is only
applied to the variances `0` and `1` here, on which the identity agrees
with the real square root. -/
theorem qr_spec_formula_cex :
    (processQRFile sqId cxFile).isSome = true ∧
    (processQRFile sqId cxFile).map QRRecord.duration_variability = some 0 ∧
    specRunDurations cxRows = [2, 0] ∧
    specCV sqId (specRunDurations cxRows) = 1 ∧
    sqId 0 = 0 ∧ sqId 1 = 1 := by
  refine ⟨rfl, ?_, ?_, ?_, rfl, rfl⟩
  · simp [processQRFile, cxFile, cxRows, qrDurVar, std, variance, mean,
      phaseDurations, phaseRuns, runDuration, sqId]
  · simp [specRunDurations, cxRows, phaseRuns]
  · simp [specCV, specRunDurations, cxRows, phaseRuns, std, variance, mean, sqId]
    norm_num

end TMLEC
